import Mathlib

/-!
Shallow embedding of `src/typed_value.rs` from the magnus repository: the
`TypedValue` tagged union, its forward conversion `from_value` (classify)
and reverse conversion `as_value` (materialize).

The supporting runtime types (`Value`, the typed wrapper structs, the tag
query `rb_type`, and the constant accessors `qtrue`/`qfalse`/`qnil`) live
in modules of the repository that are not part of the provided source, so
they are modelled from the spec, as documented on each definition.  The
host runtime's tag query is an external oracle; it is passed explicitly as
a function `tag_of : Nat → RubyValueType` over raw handle words.
-/

namespace Magnus

/-- Modelled from the spec: the externally defined closed Type Tag
enumeration (`rb_sys::ruby_value_type`), one constructor per tag the host
runtime can report. -/
inductive RubyValueType where
  | RUBY_T_NONE
  | RUBY_T_OBJECT
  | RUBY_T_CLASS
  | RUBY_T_MODULE
  | RUBY_T_FLOAT
  | RUBY_T_STRING
  | RUBY_T_REGEXP
  | RUBY_T_ARRAY
  | RUBY_T_HASH
  | RUBY_T_STRUCT
  | RUBY_T_BIGNUM
  | RUBY_T_FILE
  | RUBY_T_DATA
  | RUBY_T_MATCH
  | RUBY_T_COMPLEX
  | RUBY_T_RATIONAL
  | RUBY_T_NIL
  | RUBY_T_TRUE
  | RUBY_T_FALSE
  | RUBY_T_SYMBOL
  | RUBY_T_FIXNUM
  | RUBY_T_UNDEF
  | RUBY_T_IMEMO
  | RUBY_T_NODE
  | RUBY_T_ICLASS
  | RUBY_T_ZOMBIE
  | RUBY_T_MOVED
  | RUBY_T_MASK
  deriving DecidableEq, Repr

/-- Modelled from the spec: the Opaque Handle (`Value`, missing from the
provided source) is an externally defined fixed-width word the host
runtime uses to represent any value; it is borrowed, never allocated or
freed here. -/
structure Value where
  raw : Nat
  deriving DecidableEq, Repr

/-- Modelled from the spec: `Value::as_rb_value` exposes the raw word of
the handle. -/
def Value.as_rb_value (v : Value) : Nat := v.raw

/-- Modelled from the spec: `Value::rb_type` queries the handle's Type
Tag through the host-runtime introspection call `tag_of`. -/
def Value.rb_type (tag_of : Nat → RubyValueType) (v : Value) : RubyValueType :=
  tag_of v.raw

/-- Modelled from the spec: raw word of the canonical "true" handle. -/
def QTRUE_RAW : Nat := 20

/-- Modelled from the spec: raw word of the canonical "false" handle. -/
def QFALSE_RAW : Nat := 0

/-- Modelled from the spec: raw word of the canonical "nil" handle. -/
def QNIL_RAW : Nat := 8

/-- Modelled from the spec: host-runtime constant accessor for the
canonical "true" handle (`qtrue().as_value()` in the source). -/
def qtrue : Value := ⟨QTRUE_RAW⟩

/-- Modelled from the spec: host-runtime constant accessor for the
canonical "false" handle (`qfalse().as_value()` in the source). -/
def qfalse : Value := ⟨QFALSE_RAW⟩

/-- Modelled from the spec: host-runtime constant accessor for the
canonical "nil" handle (`qnil().as_value()` in the source). -/
def qnil : Value := ⟨QNIL_RAW⟩

/-- Modelled from the spec: the `Integer` typed wrapper, a zero-cost view
of the same handle word; the unchecked constructor trusts the tag check
performed by the dispatcher. -/
structure Integer where
  rbValue : Nat
  deriving DecidableEq, Repr

def Integer.from_rb_value_unchecked (n : Nat) : Integer := ⟨n⟩

def Integer.as_value (x : Integer) : Value := ⟨x.rbValue⟩

/-- Modelled from the spec: the `Float` typed wrapper. -/
structure Float where
  rbValue : Nat
  deriving DecidableEq, Repr

def Float.from_rb_value_unchecked (n : Nat) : Float := ⟨n⟩

def Float.as_value (x : Float) : Value := ⟨x.rbValue⟩

/-- Modelled from the spec: the `RComplex` typed wrapper. -/
structure RComplex where
  rbValue : Nat
  deriving DecidableEq, Repr

def RComplex.from_rb_value_unchecked (n : Nat) : RComplex := ⟨n⟩

def RComplex.as_value (x : RComplex) : Value := ⟨x.rbValue⟩

/-- Modelled from the spec: the `RRational` typed wrapper. -/
structure RRational where
  rbValue : Nat
  deriving DecidableEq, Repr

def RRational.from_rb_value_unchecked (n : Nat) : RRational := ⟨n⟩

def RRational.as_value (x : RRational) : Value := ⟨x.rbValue⟩

/-- Modelled from the spec: the `RString` typed wrapper. -/
structure RString where
  rbValue : Nat
  deriving DecidableEq, Repr

def RString.from_rb_value_unchecked (n : Nat) : RString := ⟨n⟩

def RString.as_value (x : RString) : Value := ⟨x.rbValue⟩

/-- Modelled from the spec: the `Symbol` typed wrapper. -/
structure Symbol where
  rbValue : Nat
  deriving DecidableEq, Repr

def Symbol.from_rb_value_unchecked (n : Nat) : Symbol := ⟨n⟩

def Symbol.as_value (x : Symbol) : Value := ⟨x.rbValue⟩

/-- Modelled from the spec: the `Range` typed wrapper. -/
structure Range where
  rbValue : Nat
  deriving DecidableEq, Repr

def Range.from_rb_value_unchecked (n : Nat) : Range := ⟨n⟩

def Range.as_value (x : Range) : Value := ⟨x.rbValue⟩

/-- Modelled from the spec: the `RArray` typed wrapper. -/
structure RArray where
  rbValue : Nat
  deriving DecidableEq, Repr

def RArray.from_rb_value_unchecked (n : Nat) : RArray := ⟨n⟩

def RArray.as_value (x : RArray) : Value := ⟨x.rbValue⟩

/-- Modelled from the spec: the `RHash` typed wrapper. -/
structure RHash where
  rbValue : Nat
  deriving DecidableEq, Repr

def RHash.from_rb_value_unchecked (n : Nat) : RHash := ⟨n⟩

def RHash.as_value (x : RHash) : Value := ⟨x.rbValue⟩

/-- Modelled from the spec: the `RStruct` typed wrapper. -/
structure RStruct where
  rbValue : Nat
  deriving DecidableEq, Repr

def RStruct.from_rb_value_unchecked (n : Nat) : RStruct := ⟨n⟩

def RStruct.as_value (x : RStruct) : Value := ⟨x.rbValue⟩

/-- Modelled from the spec: the `RTypedData` typed wrapper. -/
structure RTypedData where
  rbValue : Nat
  deriving DecidableEq, Repr

def RTypedData.from_rb_value_unchecked (n : Nat) : RTypedData := ⟨n⟩

def RTypedData.as_value (x : RTypedData) : Value := ⟨x.rbValue⟩

/-- Modelled from the spec: the `RObject` typed wrapper. -/
structure RObject where
  rbValue : Nat
  deriving DecidableEq, Repr

def RObject.from_rb_value_unchecked (n : Nat) : RObject := ⟨n⟩

def RObject.as_value (x : RObject) : Value := ⟨x.rbValue⟩

/-- Modelled from the spec: the `RClass` typed wrapper. -/
structure RClass where
  rbValue : Nat
  deriving DecidableEq, Repr

def RClass.from_rb_value_unchecked (n : Nat) : RClass := ⟨n⟩

def RClass.as_value (x : RClass) : Value := ⟨x.rbValue⟩

/-- Modelled from the spec: the `RModule` typed wrapper. -/
structure RModule where
  rbValue : Nat
  deriving DecidableEq, Repr

def RModule.from_rb_value_unchecked (n : Nat) : RModule := ⟨n⟩

def RModule.as_value (x : RModule) : Value := ⟨x.rbValue⟩

/-- Modelled from the spec: the `RFile` typed wrapper. -/
structure RFile where
  rbValue : Nat
  deriving DecidableEq, Repr

def RFile.from_rb_value_unchecked (n : Nat) : RFile := ⟨n⟩

def RFile.as_value (x : RFile) : Value := ⟨x.rbValue⟩

/-- Modelled from the spec: the `RMatch` typed wrapper. -/
structure RMatch where
  rbValue : Nat
  deriving DecidableEq, Repr

def RMatch.from_rb_value_unchecked (n : Nat) : RMatch := ⟨n⟩

def RMatch.as_value (x : RMatch) : Value := ⟨x.rbValue⟩

/-- Modelled from the spec: the `Enumerator` typed wrapper. -/
structure Enumerator where
  rbValue : Nat
  deriving DecidableEq, Repr

def Enumerator.from_rb_value_unchecked (n : Nat) : Enumerator := ⟨n⟩

def Enumerator.as_value (x : Enumerator) : Value := ⟨x.rbValue⟩

/-- Modelled from the spec: the `RRegexp` typed wrapper. -/
structure RRegexp where
  rbValue : Nat
  deriving DecidableEq, Repr

def RRegexp.from_rb_value_unchecked (n : Nat) : RRegexp := ⟨n⟩

def RRegexp.as_value (x : RRegexp) : Value := ⟨x.rbValue⟩

/-- The `TypedValue` enum from `src/typed_value.rs`: a strongly typed Ruby
value, one case per supported category plus the catch-all `Value` case and
the payload-less singletons `True`, `False`, `Nil`. -/
inductive TypedValue where
  | Integer (i : Integer)
  | Float (f : Float)
  | Complex (c : RComplex)
  | Rational (r : RRational)
  | String (s : RString)
  | Symbol (s : Symbol)
  | Range (r : Range)
  | Array (a : RArray)
  | Hash (h : RHash)
  | Struct (s : RStruct)
  | TypedData (t : RTypedData)
  | Object (o : RObject)
  | Class (c : RClass)
  | Module (m : RModule)
  | File (f : RFile)
  | Match (m : RMatch)
  | Enumerator (e : Enumerator)
  | Regexp (r : RRegexp)
  | Value (v : Value)
  | True
  | False
  | Nil
  deriving DecidableEq, Repr

/-- `TypedValue::from_value` from `src/typed_value.rs`: dispatch on the
handle's Type Tag.  The source aborts (Rust panic) on `RUBY_T_NONE`; the
abort is embedded as `none`, every other arm as `some`. -/
def TypedValue.from_value (tag_of : Nat → RubyValueType) (val : Magnus.Value) :
    Option TypedValue :=
  let rb_value := val.as_rb_value
  match val.rb_type tag_of with
  | .RUBY_T_NONE => none
  | .RUBY_T_OBJECT => some (.Object (RObject.from_rb_value_unchecked rb_value))
  | .RUBY_T_CLASS => some (.Class (RClass.from_rb_value_unchecked rb_value))
  | .RUBY_T_MODULE => some (.Module (RModule.from_rb_value_unchecked rb_value))
  | .RUBY_T_FLOAT => some (.Float (Float.from_rb_value_unchecked rb_value))
  | .RUBY_T_STRING => some (.String (RString.from_rb_value_unchecked rb_value))
  | .RUBY_T_REGEXP => some (.Regexp (RRegexp.from_rb_value_unchecked rb_value))
  | .RUBY_T_ARRAY => some (.Array (RArray.from_rb_value_unchecked rb_value))
  | .RUBY_T_HASH => some (.Hash (RHash.from_rb_value_unchecked rb_value))
  | .RUBY_T_STRUCT => some (.Struct (RStruct.from_rb_value_unchecked rb_value))
  | .RUBY_T_BIGNUM => some (.Integer (Integer.from_rb_value_unchecked rb_value))
  | .RUBY_T_FILE => some (.File (RFile.from_rb_value_unchecked rb_value))
  | .RUBY_T_DATA => some (.TypedData (RTypedData.from_rb_value_unchecked rb_value))
  | .RUBY_T_MATCH => some (.Match (RMatch.from_rb_value_unchecked rb_value))
  | .RUBY_T_COMPLEX => some (.Complex (RComplex.from_rb_value_unchecked rb_value))
  | .RUBY_T_RATIONAL => some (.Rational (RRational.from_rb_value_unchecked rb_value))
  | .RUBY_T_NIL => some .Nil
  | .RUBY_T_TRUE => some .True
  | .RUBY_T_FALSE => some .False
  | .RUBY_T_SYMBOL => some (.Symbol (Symbol.from_rb_value_unchecked rb_value))
  | .RUBY_T_FIXNUM => some (.Integer (Integer.from_rb_value_unchecked rb_value))
  | .RUBY_T_UNDEF => some (.Value val)
  | .RUBY_T_IMEMO => some (.Value val)
  | .RUBY_T_NODE => some (.Value val)
  | .RUBY_T_ICLASS => some (.Value val)
  | .RUBY_T_ZOMBIE => some (.Value val)
  | .RUBY_T_MOVED => some (.Value val)
  | .RUBY_T_MASK => some (.Value val)

/-- `TypedValue::as_value` from `src/typed_value.rs`: the reverse
conversion, one arm per case. -/
def TypedValue.as_value : TypedValue → Magnus.Value
  | .Integer i => i.as_value
  | .Float f => f.as_value
  | .Complex c => c.as_value
  | .Rational r => r.as_value
  | .String s => s.as_value
  | .Symbol s => s.as_value
  | .Range r => r.as_value
  | .Array a => a.as_value
  | .Hash h => h.as_value
  | .Struct s => s.as_value
  | .TypedData t => t.as_value
  | .Object o => o.as_value
  | .Class c => c.as_value
  | .Module m => m.as_value
  | .File f => f.as_value
  | .Match m => m.as_value
  | .Enumerator e => e.as_value
  | .Regexp r => r.as_value
  | .Value v => v
  | .True => qtrue
  | .False => qfalse
  | .Nil => qnil

/-- C1: Round-trip law — for every valid, non-reclaimed handle `h` (tag
not `RUBY_T_NONE`), `from_value` followed by `as_value` yields the same
handle.  Validity of a handle tagged true/false/nil means it is the
canonical constant handle, which is the host-runtime invariant the spec
assumes for "valid" handles. -/
theorem from_value_as_value_round_trip (tag_of : Nat → RubyValueType) (v : Value)
    (h0 : v.rb_type tag_of ≠ .RUBY_T_NONE)
    (ht : v.rb_type tag_of = .RUBY_T_TRUE → v = qtrue)
    (hf : v.rb_type tag_of = .RUBY_T_FALSE → v = qfalse)
    (hn : v.rb_type tag_of = .RUBY_T_NIL → v = qnil) :
    ∃ t, TypedValue.from_value tag_of v = some t ∧ t.as_value = v := by
  unfold TypedValue.from_value
  cases htag : v.rb_type tag_of
  all_goals
    first
      | exact absurd htag h0
      | exact ⟨_, rfl, rfl⟩
      | exact ⟨_, rfl, (ht htag).symm⟩
      | exact ⟨_, rfl, (hf htag).symm⟩
      | exact ⟨_, rfl, (hn htag).symm⟩

/-- Witness for C1 at a concrete host oracle and handle. -/
theorem from_value_as_value_round_trip_witness :
    ∃ t, TypedValue.from_value (fun _ => .RUBY_T_ARRAY) ⟨42⟩ = some t ∧
      t.as_value = ⟨42⟩ :=
  from_value_as_value_round_trip (fun _ => .RUBY_T_ARRAY) ⟨42⟩
    (by decide) (by decide) (by decide) (by decide)

/-- C2: Exhaustiveness — every Type Tag value the host runtime can report
is handled by the dispatch in `from_value`: the tag either is
`RUBY_T_NONE` (the fatal arm) or produces exactly one variant. -/
theorem from_value_total_dispatch (tag_of : Nat → RubyValueType) (v : Value) :
    (v.rb_type tag_of = .RUBY_T_NONE ∧ TypedValue.from_value tag_of v = none) ∨
      ∃ t, TypedValue.from_value tag_of v = some t := by
  unfold TypedValue.from_value
  cases htag : v.rb_type tag_of
  all_goals
    first
      | exact Or.inl ⟨rfl, rfl⟩
      | exact Or.inl ⟨htag, rfl⟩
      | exact Or.inr ⟨_, rfl⟩

/-- C3: Fatal-path isolation — `from_value` aborts (embedded as `none`)
exactly when the handle's tag is `RUBY_T_NONE`, and for no other input. -/
theorem from_value_none_iff_reclaimed (tag_of : Nat → RubyValueType) (v : Value) :
    TypedValue.from_value tag_of v = none ↔ v.rb_type tag_of = .RUBY_T_NONE := by
  unfold TypedValue.from_value
  cases htag : v.rb_type tag_of <;> simp [htag]

/-- C4: Catch-all containment — each internal/transient tag (UNDEF,
IMEMO, NODE, ICLASS, ZOMBIE, MOVED, MASK) maps to the single catch-all
case `TypedValue.Value`, and `as_value` on that case returns the original
handle unchanged. -/
theorem internal_tags_catch_all (tag_of : Nat → RubyValueType) (v : Value)
    (h : v.rb_type tag_of = .RUBY_T_UNDEF ∨ v.rb_type tag_of = .RUBY_T_IMEMO ∨
      v.rb_type tag_of = .RUBY_T_NODE ∨ v.rb_type tag_of = .RUBY_T_ICLASS ∨
      v.rb_type tag_of = .RUBY_T_ZOMBIE ∨ v.rb_type tag_of = .RUBY_T_MOVED ∨
      v.rb_type tag_of = .RUBY_T_MASK) :
    TypedValue.from_value tag_of v = some (.Value v) ∧
      (TypedValue.Value v).as_value = v := by
  unfold TypedValue.from_value
  rcases h with h | h | h | h | h | h | h <;> simp [h, TypedValue.as_value]

/-- Witness for C4 at a concrete host oracle and handle. -/
theorem internal_tags_catch_all_witness :
    TypedValue.from_value (fun _ => .RUBY_T_IMEMO) ⟨3⟩ =
        some (.Value ⟨3⟩) ∧
      (TypedValue.Value ⟨3⟩).as_value = ⟨3⟩ :=
  internal_tags_catch_all (fun _ => .RUBY_T_IMEMO) ⟨3⟩ (Or.inr (Or.inl rfl))

/-- C5: Singleton correctness — a handle tagged `RUBY_T_TRUE` classifies
to the payload-less `True` case, `RUBY_T_FALSE` to `False`, and
`RUBY_T_NIL` to `Nil`. -/
theorem singleton_tags_classification (tag_of : Nat → RubyValueType) (v : Value) :
    (v.rb_type tag_of = .RUBY_T_TRUE →
        TypedValue.from_value tag_of v = some .True) ∧
      (v.rb_type tag_of = .RUBY_T_FALSE →
        TypedValue.from_value tag_of v = some .False) ∧
      (v.rb_type tag_of = .RUBY_T_NIL →
        TypedValue.from_value tag_of v = some .Nil) := by
  unfold TypedValue.from_value
  refine ⟨fun h => ?_, fun h => ?_, fun h => ?_⟩ <;> simp [h]

/-- Witness for C5 at the canonical constant handles. -/
theorem singleton_tags_classification_witness :
    TypedValue.from_value (fun _ => .RUBY_T_TRUE) qtrue = some .True ∧
      TypedValue.from_value (fun _ => .RUBY_T_FALSE) qfalse = some .False ∧
      TypedValue.from_value (fun _ => .RUBY_T_NIL) qnil = some .Nil :=
  ⟨(singleton_tags_classification (fun _ => .RUBY_T_TRUE) qtrue).1 rfl,
    (singleton_tags_classification (fun _ => .RUBY_T_FALSE) qfalse).2.1 rfl,
    (singleton_tags_classification (fun _ => .RUBY_T_NIL) qnil).2.2 rfl⟩

/-- C6 counterexample: on a handle tagged `RUBY_T_UNDEF`, `from_value`
returns the catch-all `TypedValue.Value` case carrying the handle — not a
dedicated payload-less `Undef` singleton, which does not exist in this
revision's enum. -/
theorem undef_yields_catch_all_counterexample :
    TypedValue.from_value (fun _ => .RUBY_T_UNDEF) ⟨7⟩ =
        some (.Value ⟨7⟩) ∧
      TypedValue.Value (⟨7⟩ : Value) ≠ .True ∧
      TypedValue.Value (⟨7⟩ : Value) ≠ .False ∧
      TypedValue.Value (⟨7⟩ : Value) ≠ .Nil := by
  refine ⟨rfl, ?_, ?_, ?_⟩ <;> decide

/-- C6 amended: in this revision the `RUBY_T_UNDEF` tag maps to the
catch-all `TypedValue.Value` case (there is no `Undef` variant). -/
theorem undef_maps_to_catch_all (tag_of : Nat → RubyValueType) (v : Value)
    (h : v.rb_type tag_of = .RUBY_T_UNDEF) :
    TypedValue.from_value tag_of v = some (.Value v) := by
  unfold TypedValue.from_value
  simp [h]

/-- Witness for the amended C6 at a concrete host oracle and handle. -/
theorem undef_maps_to_catch_all_witness :
    TypedValue.from_value (fun _ => .RUBY_T_UNDEF) ⟨9⟩ = some (.Value ⟨9⟩) :=
  undef_maps_to_catch_all (fun _ => .RUBY_T_UNDEF) ⟨9⟩ rfl

/-- C7: Numeric subcategory collapse — both integer tags, `RUBY_T_FIXNUM`
and `RUBY_T_BIGNUM`, map to the `Integer` case built from the raw handle
word alone, so two handles with the same raw word but different integer
encodings classify to the identical variant: the result does not reveal
which encoding produced it. -/
theorem numeric_subcategory_collapse (tf1 tf2 : Nat → RubyValueType)
    (v1 v2 : Value)
    (h1 : v1.rb_type tf1 = .RUBY_T_FIXNUM) (h2 : v2.rb_type tf2 = .RUBY_T_BIGNUM)
    (hraw : v1.raw = v2.raw) :
    TypedValue.from_value tf1 v1 =
        some (.Integer (Integer.from_rb_value_unchecked v1.as_rb_value)) ∧
      TypedValue.from_value tf2 v2 =
        some (.Integer (Integer.from_rb_value_unchecked v2.as_rb_value)) ∧
      TypedValue.from_value tf1 v1 = TypedValue.from_value tf2 v2 := by
  unfold TypedValue.from_value
  simp [h1, h2, Value.as_rb_value, hraw]

/-- Witness for C7 at concrete oracles and handles sharing a raw word. -/
theorem numeric_subcategory_collapse_witness :
    TypedValue.from_value (fun _ => .RUBY_T_FIXNUM) ⟨11⟩ =
        some (.Integer (Integer.from_rb_value_unchecked
          (Value.as_rb_value ⟨11⟩))) ∧
      TypedValue.from_value (fun _ => .RUBY_T_BIGNUM) ⟨11⟩ =
        some (.Integer (Integer.from_rb_value_unchecked
          (Value.as_rb_value ⟨11⟩))) ∧
      TypedValue.from_value (fun _ => .RUBY_T_FIXNUM) ⟨11⟩ =
        TypedValue.from_value (fun _ => .RUBY_T_BIGNUM) ⟨11⟩ :=
  numeric_subcategory_collapse (fun _ => .RUBY_T_FIXNUM)
    (fun _ => .RUBY_T_BIGNUM) ⟨11⟩ ⟨11⟩ rfl rfl rfl

/-- C8: Materialize totality — `as_value` is a total function with one arm
per case: each wrapper case returns the handle its payload wraps, the
catch-all returns the wrapped handle, and the singletons return the
canonical constant handles. -/
theorem as_value_total_per_case :
    (∀ t : TypedValue, ∃ v, t.as_value = v) ∧
      (∀ x, (TypedValue.Integer x).as_value = x.as_value) ∧
      (∀ x, (TypedValue.Float x).as_value = x.as_value) ∧
      (∀ x, (TypedValue.Complex x).as_value = x.as_value) ∧
      (∀ x, (TypedValue.Rational x).as_value = x.as_value) ∧
      (∀ x, (TypedValue.String x).as_value = x.as_value) ∧
      (∀ x, (TypedValue.Symbol x).as_value = x.as_value) ∧
      (∀ x, (TypedValue.Range x).as_value = x.as_value) ∧
      (∀ x, (TypedValue.Array x).as_value = x.as_value) ∧
      (∀ x, (TypedValue.Hash x).as_value = x.as_value) ∧
      (∀ x, (TypedValue.Struct x).as_value = x.as_value) ∧
      (∀ x, (TypedValue.TypedData x).as_value = x.as_value) ∧
      (∀ x, (TypedValue.Object x).as_value = x.as_value) ∧
      (∀ x, (TypedValue.Class x).as_value = x.as_value) ∧
      (∀ x, (TypedValue.Module x).as_value = x.as_value) ∧
      (∀ x, (TypedValue.File x).as_value = x.as_value) ∧
      (∀ x, (TypedValue.Match x).as_value = x.as_value) ∧
      (∀ x, (TypedValue.Enumerator x).as_value = x.as_value) ∧
      (∀ x, (TypedValue.Regexp x).as_value = x.as_value) ∧
      (∀ v, (TypedValue.Value v).as_value = v) ∧
      TypedValue.True.as_value = qtrue ∧
      TypedValue.False.as_value = qfalse ∧
      TypedValue.Nil.as_value = qnil :=
  ⟨fun t => ⟨t.as_value, rfl⟩, fun _ => rfl, fun _ => rfl, fun _ => rfl,
    fun _ => rfl, fun _ => rfl, fun _ => rfl, fun _ => rfl, fun _ => rfl,
    fun _ => rfl, fun _ => rfl, fun _ => rfl, fun _ => rfl, fun _ => rfl,
    fun _ => rfl, fun _ => rfl, fun _ => rfl, fun _ => rfl, fun _ => rfl,
    fun _ => rfl, rfl, rfl, rfl⟩

/-- C9: the forward conversion never produces the `Range` or `Enumerator`
variants, although both exist in the enum and are handled by `as_value`. -/
theorem from_value_never_range_or_enumerator (tag_of : Nat → RubyValueType)
    (v : Value) (r : Range) (e : Enumerator) :
    TypedValue.from_value tag_of v ≠ some (.Range r) ∧
      TypedValue.from_value tag_of v ≠ some (.Enumerator e) := by
  unfold TypedValue.from_value
  cases htag : v.rb_type tag_of <;> simp

/-- C10: the round trip is exact for both integer tags — for a handle
tagged `RUBY_T_FIXNUM` or `RUBY_T_BIGNUM`, `as_value` after `from_value`
returns exactly the original handle, so the numeric collapse never changes
the handle materialize returns. -/
theorem numeric_round_trip_exact (tag_of : Nat → RubyValueType) (v : Value)
    (h : v.rb_type tag_of = .RUBY_T_FIXNUM ∨ v.rb_type tag_of = .RUBY_T_BIGNUM) :
    (TypedValue.from_value tag_of v).map TypedValue.as_value = some v := by
  unfold TypedValue.from_value
  rcases h with h | h <;>
    simp [h, TypedValue.as_value, Integer.from_rb_value_unchecked,
      Integer.as_value, Value.as_rb_value]

/-- Witness for C10 at a concrete host oracle and handle. -/
theorem numeric_round_trip_exact_witness :
    (TypedValue.from_value (fun _ => .RUBY_T_BIGNUM) ⟨13⟩).map
      TypedValue.as_value = some ⟨13⟩ :=
  numeric_round_trip_exact (fun _ => .RUBY_T_BIGNUM) ⟨13⟩ (Or.inr rfl)

end Magnus
